import Mathlib

/-
Verification of the logion LOC client (logion-api).

Shallow embedding of the parts of the client relevant to the checked
properties: license-terms validation (LogionClassification.ts), token
validation and item submission (LocClient.ts), the collection-item /
tokens-record reconciliation queries (LocClient.ts), the issuer-list
reconciliation (AuthenticatedLocClient.getLocIssuers), the state-object
discard discipline (State.ts), and the multi-endpoint aggregator (Http.ts).

Effectful methods are embedded as pure functions over explicit oracles for
the external collaborators (backend HTTP responses, ledger submission
results), returning a result together with a trace of the side effects
attempted. Hashes are modelled as natural numbers, bigint sizes as
naturals, JS strings as Lean strings.
-/

namespace Logion

/-! ## Shared basics: backend responses and client-side errors -/

/-- A failed backend HTTP interaction, as observed by the client:
either a 404 (the addressed record does not exist) or another non-2xx
response carrying status and message. -/
inductive BackendFailure where
  | notFound
  | failure (status : Nat) (msg : String)
  deriving DecidableEq

/-- Outcome of one backend HTTP call. -/
inductive BackendResponse (A : Type) where
  | success (a : A)
  | fail (f : BackendFailure)
  deriving DecidableEq

/-- Client-side error taxonomy (spec section 7).

Modelled from the spec: Error.ts (`newBackendError`) is not among the
provided source files, only its import sites are. Per the spec taxonomy, a
missing backend companion of an on-chain entity surfaces as
`OffchainRecordNotFoundError`, any other non-2xx backend response as a
`BackendError` wrapping status and message; `internalError` stands for a
wrapped runtime exception (e.g. a TypeError raised inside the merge and
caught by the surrounding try/catch). -/
inductive ClientError where
  | offchainRecordNotFound
  | backendFailure (status : Nat) (msg : String)
  | internalError
  deriving DecidableEq

/-- Modelled from the spec: `newBackendError` (Error.ts, not under src)
wraps a failed backend response into the client error taxonomy. -/
def newBackendError : BackendFailure → ClientError
  | BackendFailure.notFound => ClientError.offchainRecordNotFound
  | BackendFailure.failure status msg => ClientError.backendFailure status msg

/-! ## License terms validation
(packages/client/src/license/LogionClassification.ts) -/

/-- The transferred-right codes of the logion classification. -/
inductive LogionTransferredRightCode where
  | PER_PRIV
  | PER_PUB
  | COM_NOMOD
  | COM_MOD
  | EX
  | NOEX
  | WW
  | REG
  | NOTIME
  | TIME
  deriving DecidableEq

/-- Rendering of a code in error messages. -/
def LogionTransferredRightCode.str : LogionTransferredRightCode → String
  | LogionTransferredRightCode.PER_PRIV => "PER-PRIV"
  | LogionTransferredRightCode.PER_PUB => "PER-PUB"
  | LogionTransferredRightCode.COM_NOMOD => "COM-NOMOD"
  | LogionTransferredRightCode.COM_MOD => "COM-MOD"
  | LogionTransferredRightCode.EX => "EX"
  | LogionTransferredRightCode.NOEX => "NOEX"
  | LogionTransferredRightCode.WW => "WW"
  | LogionTransferredRightCode.REG => "REG"
  | LogionTransferredRightCode.NOTIME => "NOTIME"
  | LogionTransferredRightCode.TIME => "TIME"

/-- `LogionLicenseParameters`. `regionalLimit` and `expiration` are
optional in the source (`regionalLimit?`, `expiration?`). -/
structure LogionLicenseParameters where
  transferredRights : List LogionTransferredRightCode
  regionalLimit : Option (List String)
  expiration : Option String
  deriving DecidableEq

/-- `params.expiration !== undefined && params.expiration.length > 0`. -/
def expirationSet (p : LogionLicenseParameters) : Bool :=
  match p.expiration with
  | some s => s.length > 0
  | none => false

/-- `params.regionalLimit !== undefined && params.regionalLimit.length > 0`. -/
def regionalLimitSet (p : LogionLicenseParameters) : Bool :=
  match p.regionalLimit with
  | some l => l.length > 0
  | none => false

/-- Errors pushed by `Validator.mutuallyExclusive(code1, code2)`. -/
def mutuallyExclusive (p : LogionLicenseParameters)
    (code1 code2 : LogionTransferredRightCode) : List String :=
  if p.transferredRights.contains code1 && p.transferredRights.contains code2 then
    ["Transferred rights are mutually exclusive: " ++ code1.str ++ " and " ++ code2.str]
  else []

/-- Errors pushed by `Validator.codePresentForCondition(code, condition, message)`:
one message when the code is absent but the condition holds, one when the
code is present but the condition fails. -/
def codePresentForCondition (p : LogionLicenseParameters)
    (code : LogionTransferredRightCode) (condition : Bool) (message : String) : List String :=
  (if !p.transferredRights.contains code && condition then [message] else [])
    ++ (if p.transferredRights.contains code && !condition then [message] else [])

/-- Errors pushed by `Validator.validIsoDate(date)`: checked only when the
date is truthy (defined and non-empty). `isValidISO` stands for luxon's
`DateTime.fromISO(date).isValid`, an external collaborator. -/
def validIsoDate (isValidISO : String → Bool) : Option String → List String
  | some s => if s ≠ "" && !isValidISO s then ["Invalid date"] else []
  | none => []

/-- The error list accumulated by `LogionClassification.checkValidity`, in
the order the validator steps run. -/
def checkValidityErrors (isValidISO : String → Bool)
    (p : LogionLicenseParameters) : List String :=
  mutuallyExclusive p LogionTransferredRightCode.PER_PRIV LogionTransferredRightCode.PER_PUB
    ++ mutuallyExclusive p LogionTransferredRightCode.COM_NOMOD LogionTransferredRightCode.COM_MOD
    ++ mutuallyExclusive p LogionTransferredRightCode.EX LogionTransferredRightCode.NOEX
    ++ mutuallyExclusive p LogionTransferredRightCode.REG LogionTransferredRightCode.WW
    ++ mutuallyExclusive p LogionTransferredRightCode.TIME LogionTransferredRightCode.NOTIME
    ++ codePresentForCondition p LogionTransferredRightCode.TIME (expirationSet p)
        ("Transferred right TIME must be set if and only if expiration is set")
    ++ codePresentForCondition p LogionTransferredRightCode.REG (regionalLimitSet p)
        ("Transferred right REG must be set if and only if a regional limit is set")
    ++ validIsoDate isValidISO p.expiration

/-- `Validator.validOrThrow`, as run by the `LogionClassification`
constructor when validity checking is enabled: throws the `"; "`-joined
error list when it is non-empty. -/
def checkValidity (isValidISO : String → Bool)
    (p : LogionLicenseParameters) : Except String Unit :=
  let errors := checkValidityErrors isValidISO p
  if errors = [] then Except.ok () else Except.error (String.intercalate ("; ") errors)

/-- A set expiration date that does not parse as a valid ISO date. -/
def invalidExpiration (isValidISO : String → Bool) : Option String → Bool
  | some s => s ≠ "" && !isValidISO s
  | none => false

/-- The spec side of the validity claim, following its words: the
parameters violate at least one of the stated rules — a mutually exclusive
pair both present, TIME present not equivalent to an expiration being set,
REG present not equivalent to a non-empty regional limit, or a set
expiration that does not parse as a valid ISO date. -/
def specCheckFails (isValidISO : String → Bool) (p : LogionLicenseParameters) : Bool :=
  (p.transferredRights.contains LogionTransferredRightCode.PER_PRIV
    && p.transferredRights.contains LogionTransferredRightCode.PER_PUB)
  || (p.transferredRights.contains LogionTransferredRightCode.COM_NOMOD
    && p.transferredRights.contains LogionTransferredRightCode.COM_MOD)
  || (p.transferredRights.contains LogionTransferredRightCode.EX
    && p.transferredRights.contains LogionTransferredRightCode.NOEX)
  || (p.transferredRights.contains LogionTransferredRightCode.REG
    && p.transferredRights.contains LogionTransferredRightCode.WW)
  || (p.transferredRights.contains LogionTransferredRightCode.TIME
    && p.transferredRights.contains LogionTransferredRightCode.NOTIME)
  || (p.transferredRights.contains LogionTransferredRightCode.TIME != expirationSet p)
  || (p.transferredRights.contains LogionTransferredRightCode.REG != regionalLimitSet p)
  || invalidExpiration isValidISO p.expiration

/-! ## Token validation error path
(AuthenticatedLocClient.validTokenOrThrow, LocClient.ts) -/

/-- `TokenValidationResult` as returned by `validateToken` (Token.ts). -/
structure TokenValidationResult where
  valid : Bool
  error : Option String
  deriving DecidableEq

/-- JS truthiness of an optional string: defined and non-empty. -/
def optTruthy : Option String → Bool
  | some s => s ≠ ""
  | none => false

/-- JS template interpolation of a possibly-undefined string. -/
def jsInterp : Option String → String
  | some s => s
  | none => "undefined"

/-- `AuthenticatedLocClient.validTokenOrThrow`, translated exactly: note
the generic message is thrown when `result.error` is truthy and the
detailed one when it is falsy. -/
def validTokenOrThrow (result : TokenValidationResult) (issuance : Int) : Except String Unit :=
  if !result.valid then
    if optTruthy result.error then
      Except.error ("Given token definition is invalid")
    else
      Except.error ("Given token definition is invalid: " ++ jsInterp result.error)
  else if issuance < 1 then
    Except.error ("Token must have an issuance >= 1")
  else
    Except.ok ()

/-! ## File-like payloads and lazy finalization
(ItemFileWithContent, LocClient.ts) -/

/-- Modelled from the spec: Hash.ts (`HashOrContent`) is not among the
provided source files. Per the spec, a file-like payload either carries
raw content, from which `finalize` computes the hash and size, or only a
precomputed hash with a declared size; once computed the hash/size pair is
immutable. The content-determined size and hash are carried as fields;
`HashOrContent.finalize` is modelled as always succeeding and leaving the
object unchanged. -/
structure HashOrContent where
  hasContent : Bool
  contentSize : Nat
  contentHash : Nat
  deriving DecidableEq

/-- JS falsiness of the optional bigint `_size`: `!this._size` holds for
`undefined` and for `0n`. -/
def sizeFalsy : Option Nat → Bool
  | none => true
  | some n => n == 0

/-- `ItemFileWithContent` state: name, content type, optional declared
size, and the hash-or-content payload. -/
structure ItemFileWithContent where
  name : String
  contentType : String
  size : Option Nat
  hashOrContent : HashOrContent
  deriving DecidableEq

/-- The `ItemFileWithContent` constructor check: `File size must be
provided if no content is`. -/
def mkItemFileWithContent (name contentType : String) (size : Option Nat)
    (hc : HashOrContent) : Except String ItemFileWithContent :=
  if sizeFalsy size && !hc.hasContent then
    Except.error ("File size must be provided if no content is")
  else
    Except.ok { name := name, contentType := contentType, size := size, hashOrContent := hc }

/-- `ItemFileWithContent.finalize`: after finalizing the payload, when
content is present, a falsy declared size is overwritten with the content
size, a truthy declared size is compared with the content size. -/
def ItemFileWithContent.finalize (f : ItemFileWithContent) : Except String ItemFileWithContent :=
  if f.hashOrContent.hasContent then
    match f.size with
    | none => Except.ok { f with size := some f.hashOrContent.contentSize }
    | some s =>
      if s == 0 then Except.ok { f with size := some f.hashOrContent.contentSize }
      else if s ≠ f.hashOrContent.contentSize then
        Except.error ("Given size does not match content: got " ++ toString s
          ++ ", should be " ++ toString f.hashOrContent.contentSize)
      else Except.ok f
  else Except.ok f

/-- The `size` getter: throws unless a truthy size is present. -/
def ItemFileWithContent.sizeOrThrow (f : ItemFileWithContent) : Except String Nat :=
  match f.size with
  | some s => if s == 0 then Except.error ("Call finalize() first") else Except.ok s
  | none => Except.error ("Call finalize() first")

/-! ## Collection items and tokens records: on-chain/off-chain reconciliation
(LocClient.getCollectionItem / getCollectionItems / getTokensRecord, LocClient.ts) -/

/-- A chain-authoritative value together with its optional backend
companion string (`HashString` in Hash.ts: the hash comes from chain, the
readable value from the backend when known). -/
structure HashString where
  hash : Nat
  value : Option String
  deriving DecidableEq

/-- On-chain collection item file: every field is chain data (name and
content type as hashes). -/
structure ChainItemFile where
  name : Nat
  contentType : Nat
  hash : Nat
  size : Nat
  deriving DecidableEq

/-- On-chain token reference of a collection item. -/
structure ChainToken where
  type : Nat
  id : Nat
  issuance : Nat
  deriving DecidableEq

/-- On-chain terms-and-conditions element (type and details stored hashed). -/
structure ChainTermsAndConditions where
  tcType : Nat
  tcLocId : Nat
  details : Nat
  deriving DecidableEq

/-- The on-chain `CollectionItem` as decoded from storage. -/
structure ChainCollectionItem where
  id : Nat
  description : Nat
  files : List ChainItemFile
  token : Option ChainToken
  restrictedDelivery : Bool
  termsAndConditions : List ChainTermsAndConditions
  deriving DecidableEq

/-- Backend (`offchain`) collection item file: hash keys the record, the
rest is optional backend metadata. -/
structure OffchainCollectionItemFile where
  hash : Nat
  name : Option String
  contentType : Option String
  uploaded : Option Bool
  deriving DecidableEq

/-- Backend terms-and-conditions element (readable strings). -/
structure OffchainTermsAndConditions where
  tcType : String
  tcLocId : Nat
  details : String
  deriving DecidableEq

/-- Backend token reference. -/
structure OffchainToken where
  type : Option String
  id : Option String
  deriving DecidableEq

/-- The backend companion record of a collection item. -/
structure OffchainCollectionItem where
  itemId : Nat
  addedOn : String
  description : Option String
  files : List OffchainCollectionItemFile
  termsAndConditions : List OffchainTermsAndConditions
  token : Option OffchainToken
  deriving DecidableEq

/-- Merged client token (`ClientToken`). -/
structure ClientToken where
  type : HashString
  id : HashString
  issuance : Nat
  deriving DecidableEq

/-- Merged terms-and-conditions element.

Modelled from the spec: `newTermsAndConditions` (license/index.js, not
under src) folds the backend details into the chain-authoritative terms
list; modelled as the pair of the on-chain element and the backend
element list it is resolved against. -/
structure MergedTermsAndConditions where
  onchain : ChainTermsAndConditions
  offchain : List OffchainTermsAndConditions
  deriving DecidableEq

/-- Modelled from the spec: the merged terms list keeps one element per
on-chain element, each resolved against the backend list. -/
def newTermsAndConditions (onchain : List ChainTermsAndConditions)
    (offchain : List OffchainTermsAndConditions) : List MergedTermsAndConditions :=
  onchain.map (fun tc => { onchain := tc, offchain := offchain })

/-- Merged collection item file (`UploadableItemFile`). -/
structure UploadableItemFile where
  name : HashString
  contentType : HashString
  size : Nat
  hash : Nat
  uploaded : Bool
  deriving DecidableEq

/-- Merged collection item (`UploadableCollectionItem`). -/
structure UploadableCollectionItem where
  id : Nat
  description : HashString
  addedOn : String
  files : List UploadableItemFile
  token : Option ClientToken
  restrictedDelivery : Bool
  termsAndConditions : List MergedTermsAndConditions
  deriving DecidableEq

/-- `offchainItem.files.find(offchainFile => offchainFile.hash === file.hash.toHex())`. -/
def findOffchainFile (files : List OffchainCollectionItemFile) (h : Nat) :
    Option OffchainCollectionItemFile :=
  files.find? (fun f => f.hash == h)

/-- `LocClient.mergeItems`: chain data is authoritative for ids, hashes,
sizes, token issuance, restricted delivery and the terms list; backend
data supplies the readable names, content types, description, addedOn and
the per-file uploaded flag (`?.uploaded || false`). -/
def mergeItems (onchainItem : ChainCollectionItem)
    (offchainItem : OffchainCollectionItem) : UploadableCollectionItem :=
  { id := onchainItem.id
    description := { hash := onchainItem.description, value := offchainItem.description }
    addedOn := offchainItem.addedOn
    files := onchainItem.files.map (fun file =>
      { hash := file.hash
        size := file.size
        name := { hash := file.name
                  value := (findOffchainFile offchainItem.files file.hash).bind
                    OffchainCollectionItemFile.name }
        contentType := { hash := file.contentType
                         value := (findOffchainFile offchainItem.files file.hash).bind
                           OffchainCollectionItemFile.contentType }
        uploaded := (((findOffchainFile offchainItem.files file.hash).bind
          OffchainCollectionItemFile.uploaded).getD false) })
    token := onchainItem.token.map (fun token =>
      { type := { hash := token.type, value := offchainItem.token.bind OffchainToken.type }
        id := { hash := token.id, value := offchainItem.token.bind OffchainToken.id }
        issuance := token.issuance })
    restrictedDelivery := onchainItem.restrictedDelivery
    termsAndConditions := newTermsAndConditions onchainItem.termsAndConditions
      offchainItem.termsAndConditions }

/-- `LocClient.getCollectionItem`: the on-chain entry defines existence;
when it exists the backend companion is fetched and merged, any backend
failure being wrapped by `newBackendError`. -/
def getCollectionItem (onchainItem : Option ChainCollectionItem)
    (offchainResponse : BackendResponse OffchainCollectionItem) :
    Except ClientError (Option UploadableCollectionItem) :=
  match onchainItem with
  | none => Except.ok none
  | some item =>
    match offchainResponse with
    | BackendResponse.success off => Except.ok (some (mergeItems item off))
    | BackendResponse.fail f => Except.error (newBackendError f)

/-- Lookup in the `Record` built by `for(const item of onchainItems)
onchainItemsMap[item.id.toHex()] = item`: the last binding wins. -/
def onchainLookup (items : List ChainCollectionItem) (k : Nat) :
    Option ChainCollectionItem :=
  items.reverse.find? (fun i => i.id == k)

/-- The merge loop of `getCollectionItems`: the backend item list drives
the iteration; a backend item whose on-chain companion is absent from the
map makes `mergeItems` dereference `undefined`, raising a TypeError that
the surrounding try/catch wraps into a backend error. -/
def mergeAllItems (onchainItems : List ChainCollectionItem) :
    List OffchainCollectionItem → Except ClientError (List UploadableCollectionItem)
  | [] => Except.ok []
  | off :: rest =>
    match onchainLookup onchainItems off.itemId with
    | some chainItem =>
      match mergeAllItems onchainItems rest with
      | Except.ok l => Except.ok (mergeItems chainItem off :: l)
      | Except.error e => Except.error e
    | none => Except.error ClientError.internalError

/-- `LocClient.getCollectionItems`: fetches the chain items and the
backend item list, then merges per backend item. -/
def getCollectionItems (onchainItems : List ChainCollectionItem)
    (offchainResponse : BackendResponse (List OffchainCollectionItem)) :
    Except ClientError (List UploadableCollectionItem) :=
  match offchainResponse with
  | BackendResponse.success offs => mergeAllItems onchainItems offs
  | BackendResponse.fail f => Except.error (newBackendError f)

/-- On-chain tokens-record file (size stored as a string on chain,
modelled as a natural). -/
structure ChainTokensRecordFile where
  name : Nat
  contentType : Nat
  hash : Nat
  size : Nat
  deriving DecidableEq

/-- The on-chain `TypesTokensRecord`. -/
structure ChainTokensRecord where
  description : Nat
  submitter : String
  files : List ChainTokensRecordFile
  deriving DecidableEq

/-- Backend tokens-record file. -/
structure OffchainTokensRecordFile where
  hash : Nat
  name : Option String
  contentType : Option String
  uploaded : Option Bool
  deriving DecidableEq

/-- The backend companion record of a tokens record. -/
structure OffchainTokensRecord where
  recordId : Nat
  description : String
  addedOn : String
  files : List OffchainTokensRecordFile
  deriving DecidableEq

/-- Merged tokens record (`ClientTokensRecord`). -/
structure ClientTokensRecord where
  id : Nat
  description : HashString
  addedOn : String
  files : List UploadableItemFile
  issuer : String
  deriving DecidableEq

/-- `offchainItem.files.find(offchainFile => offchainFile.hash === file.hash.toHex())`
for tokens-record files. -/
def findOffchainRecordFile (files : List OffchainTokensRecordFile) (h : Nat) :
    Option OffchainTokensRecordFile :=
  files.find? (fun f => f.hash == h)

/-- `LocClient.mergeRecords`. -/
def mergeRecords (onchainItem : ChainTokensRecord)
    (offchainItem : OffchainTokensRecord) : ClientTokensRecord :=
  { id := offchainItem.recordId
    description := { hash := onchainItem.description, value := some offchainItem.description }
    addedOn := offchainItem.addedOn
    issuer := onchainItem.submitter
    files := onchainItem.files.map (fun file =>
      { hash := file.hash
        name := { hash := file.name
                  value := (findOffchainRecordFile offchainItem.files file.hash).bind
                    OffchainTokensRecordFile.name }
        contentType := { hash := file.contentType
                         value := (findOffchainRecordFile offchainItem.files file.hash).bind
                           OffchainTokensRecordFile.contentType }
        size := file.size
        uploaded := (((findOffchainRecordFile offchainItem.files file.hash).bind
          OffchainTokensRecordFile.uploaded).getD false) }) }

/-- `LocClient.getTokensRecord`: the on-chain entry defines existence;
when it exists the backend companion is fetched and merged, any backend
failure being wrapped by `newBackendError`. -/
def getTokensRecord (onchainRecord : Option ChainTokensRecord)
    (offchainResponse : BackendResponse OffchainTokensRecord) :
    Except ClientError (Option ClientTokensRecord) :=
  match onchainRecord with
  | none => Except.ok none
  | some record =>
    match offchainResponse with
    | BackendResponse.success off => Except.ok (some (mergeRecords record off))
    | BackendResponse.fail f => Except.error (newBackendError f)

/-! ## Issuer list reconciliation
(AuthenticatedLocClient.getLocIssuers, LocClient.ts) -/

/-- Account families (`AccountType`). -/
inductive AccountType where
  | Polkadot
  | Ethereum
  | Bech32
  deriving DecidableEq

/-- `SupportedAccountId` / `ValidAccountId` as used by `getLocIssuers`. -/
structure SupportedAccountId where
  type : AccountType
  address : String
  deriving DecidableEq

/-- Backend user identity; only the fields `getLocIssuers` reads. -/
structure UserIdentity where
  firstName : String
  lastName : String
  deriving DecidableEq

/-- Backend issuer entry (`VerifiedIssuerIdentity`, `request.selectedIssuers`). -/
structure VerifiedIssuerIdentity where
  address : String
  identity : UserIdentity
  identityLocId : String
  selected : Option Bool
  deriving DecidableEq

/-- Ledger-side issuer entry, as returned by
`locBatch.getLocsVerifiedIssuers()` for the LOC. -/
structure NodeIssuer where
  address : String
  identityLocId : String
  deriving DecidableEq

/-- The reconciled issuer entry (`VerifiedIssuer`): `selected` is
optional, absent in the unprivileged view. -/
structure VerifiedIssuer where
  firstName : String
  lastName : String
  identityLocId : String
  address : String
  selected : Option Bool
  deriving DecidableEq

/-- `LocVerifiedIssuers`. -/
structure LocVerifiedIssuers where
  verifiedIssuer : Bool
  issuers : List VerifiedIssuer
  deriving DecidableEq

/-- `EMPTY_LOC_ISSUERS`. -/
def EMPTY_LOC_ISSUERS : LocVerifiedIssuers :=
  { verifiedIssuer := false, issuers := [] }

/-- Backend lifecycle statuses (`LocRequestStatus`). -/
inductive LocRequestStatus where
  | DRAFT
  | REVIEW_PENDING
  | REVIEW_REJECTED
  | REVIEW_ACCEPTED
  | OPEN
  | CLOSED
  deriving DecidableEq

/-- LOC kinds (`LocType`). -/
inductive LocType where
  | Transaction
  | Collection
  | Identity
  deriving DecidableEq

/-- The `LocRequest` fields that `getLocIssuers` reads. -/
structure IssuersRequest where
  status : LocRequestStatus
  locType : LocType
  ownerAddress : String
  requesterAddress : Option SupportedAccountId
  selectedIssuers : List VerifiedIssuerIdentity
  deriving DecidableEq

/-- Membership in the `chainSelectedIssuers` set built from the node
issuers. -/
def chainSelected (nodeIssuers : List NodeIssuer) (addr : String) : Bool :=
  nodeIssuers.any (fun i => i.address == addr)

/-- The authorization disjunction of `getLocIssuers`: the caller is the
requester (same address and account type), the owner (with a Polkadot
account), or a chain-selected issuer. -/
def isAuthorized (current : SupportedAccountId) (request : IssuersRequest)
    (nodeIssuers : List NodeIssuer) : Bool :=
  (match request.requesterAddress with
   | some r => current.address == r.address && current.type == r.type
   | none => false)
  || (current.address == request.ownerAddress && current.type == AccountType.Polkadot)
  || chainSelected nodeIssuers current.address

/-- `maybeSelectedIssuer?.identity.firstName || ""`: on a total string this
is the identity (the empty string maps to itself). -/
def jsOrEmpty (s : String) : String :=
  if s == "" then "" else s

/-- `AuthenticatedLocClient.getLocIssuers`, as a function of the caller
account, the request (backend view), the ledger-confirmed issuers of the
LOC, and the owner's available verified issuers (used only for the
`verifiedIssuer` flag). -/
def getLocIssuers (current : SupportedAccountId) (request : IssuersRequest)
    (nodeIssuers : List NodeIssuer) (availableIssuers : List NodeIssuer) :
    LocVerifiedIssuers :=
  if request.status ≠ LocRequestStatus.OPEN && request.status ≠ LocRequestStatus.CLOSED then
    EMPTY_LOC_ISSUERS
  else
    let verifiedIssuer :=
      request.locType == LocType.Identity && request.status == LocRequestStatus.CLOSED
        && (match request.requesterAddress with
            | some r => availableIssuers.any (fun i => i.address == r.address)
                && r.type == AccountType.Polkadot
            | none => false)
    let issuers :=
      if isAuthorized current request nodeIssuers then
        let addedIssuers := request.selectedIssuers.map VerifiedIssuerIdentity.address
        (request.selectedIssuers.map (fun b =>
          { identityLocId := b.identityLocId
            address := b.address
            firstName := jsOrEmpty b.identity.firstName
            lastName := jsOrEmpty b.identity.lastName
            selected := some (chainSelected nodeIssuers b.address) }))
          ++ ((nodeIssuers.filter (fun n => !addedIssuers.contains n.address)).map (fun n =>
            { identityLocId := n.identityLocId
              address := n.address
              firstName := ""
              lastName := ""
              selected := some true }))
      else
        nodeIssuers.map (fun n =>
          { identityLocId := n.identityLocId
            address := n.address
            firstName := ""
            lastName := ""
            selected := none })
    { verifiedIssuer := verifiedIssuer, issuers := issuers }

/-! ## State objects and the discard-once discipline
(State.ts: discarded / ensureCurrent / discard / discardOnSuccess) -/

/-- Modelled from the spec: State.ts is not among the provided source
files; only its generated API documentation (discarded / ensureCurrent /
discard / discardOnSuccess) and spec section 4.1 describe it. A state
object wraps a value and a `discarded` flag, initially false. -/
structure ClientState (A : Type) where
  value : A
  discarded : Bool
  deriving DecidableEq

/-- Outcome of a state transition: either the stale-state failure raised
by `ensureCurrent`, or the failure of the transition action itself. -/
inductive TransitionError (E : Type) where
  | staleState
  | actionFailed (e : E)
  deriving DecidableEq

/-- Modelled from the spec: `ensureCurrent` throws `StaleStateError` if
and only if the state was already discarded. -/
def ensureCurrent (s : ClientState A) : Except (TransitionError E) Unit :=
  if s.discarded then Except.error TransitionError.staleState else Except.ok ()

/-- Modelled from the spec: a transition method first runs `ensureCurrent`,
then the side-effecting action; on success the source object is marked
discarded and the freshly built state (not discarded) is returned; on
failure the source object is left live and the error propagates. The
returned pair is (transition result, source object after the call). -/
def discardOnSuccess (s : ClientState A) (action : Except E A) :
    Except (TransitionError E) (ClientState A) × ClientState A :=
  if s.discarded then
    (Except.error TransitionError.staleState, s)
  else
    match action with
    | Except.ok a => (Except.ok { value := a, discarded := false }, { s with discarded := true })
    | Except.error e => (Except.error (TransitionError.actionFailed e), s)

/-! ## Multi-source aggregator
(LocMultiClient.fetchAll, LocClient.ts; MultiSourceHttpClient and
aggregateArrays, Http.ts) -/

/-- Modelled from the spec: Http.ts (`MultiSourceHttpClient.fetch`) is not
among the provided source files. Per spec section 4.3 it issues the
per-endpoint operation against every endpoint, each endpoint succeeding or
failing independently, and records the per-endpoint outcomes. -/
def multiSourceFetch (endpoints : List String)
    (query : String → Except BackendFailure (List A)) :
    List (String × Except BackendFailure (List A)) :=
  endpoints.map (fun e => (e, query e))

/-- Modelled from the spec: `aggregateArrays` (Http.ts, not under src)
concatenates the arrays of the successful endpoints, in endpoint order,
dropping failed endpoints. -/
def aggregateArrays (multiResponse : List (String × Except BackendFailure (List A))) :
    List A :=
  match multiResponse with
  | [] => []
  | (_, Except.ok l) :: rest => l ++ aggregateArrays rest
  | (_, Except.error _) :: rest => aggregateArrays rest

/-- `LocMultiClient.fetchAll`: runs the per-endpoint query through the
multi-source client and aggregates the successful result arrays. -/
def fetchAll (endpoints : List String)
    (query : String → Except BackendFailure (List A)) : List A :=
  aggregateArrays (multiSourceFetch endpoints query)

/-! ## Collection item and tokens record submission
(AuthenticatedLocClient.addCollectionItem / addTokensRecord, LocClient.ts) -/

/-- Tokens as passed to `addCollectionItem` (`ItemTokenWithRestrictedType`). -/
structure ItemTokenWithRestrictedType where
  id : String
  type : String
  issuance : Int
  deriving DecidableEq

/-- A terms-and-conditions element as supplied by the caller
(logion classification, creative commons or specific license). -/
structure TermsAndConditionsElement where
  tcType : String
  tcLocId : Nat
  details : String
  deriving DecidableEq

/-- The parameters of `addCollectionItem`. `tokenValidation` carries the
outcome of `validateToken(nodeApi, itemToken)`, which depends on the
external node API. -/
structure AddCollectionItemParams where
  itemId : Nat
  itemDescription : String
  itemFiles : Option (List ItemFileWithContent)
  itemToken : Option ItemTokenWithRestrictedType
  tokenValidation : TokenValidationResult
  restrictedDelivery : Option Bool
  logionClassification : Option TermsAndConditionsElement
  specificLicenses : Option (List TermsAndConditionsElement)
  creativeCommons : Option TermsAndConditionsElement
  deriving DecidableEq

/-- The parameters of `addTokensRecord`. -/
structure AddTokensRecordParams where
  recordId : Nat
  description : String
  files : List ItemFileWithContent
  deriving DecidableEq

/-- One attempted side effect of a submission, in attempt order. -/
inductive LocEffect where
  | submitItemPublicData
  | chainSubmit
  | cancelItemPublicData
  | uploadItemFile (hash : Nat)
  | submitRecordPublicData
  | cancelRecordPublicData
  | uploadRecordFile (hash : Nat)
  deriving DecidableEq

/-- Error propagated out of a submission: a validation error thrown before
any side effect, a wrapped backend error, or the signer's own failure. -/
inductive LocClientError where
  | validation (msg : String)
  | backend (e : ClientError)
  | signer (msg : String)
  deriving DecidableEq

/-- Oracles for the external collaborators of one submission: the backend
pre-announcement POST, the signed ledger submission, the compensating
DELETE, and the per-file upload POSTs (keyed by content hash). -/
structure SubmissionEnv where
  submitResult : BackendResponse Unit
  signResult : Except String Unit
  cancelResult : BackendResponse Unit
  uploadResult : Nat → BackendResponse Unit

/-- The first finalization loop (`for(const itemFile of itemFiles) await
itemFile.finalize()`): the first failure aborts. -/
def finalizeAll : List ItemFileWithContent → Except String (List ItemFileWithContent)
  | [] => Except.ok []
  | f :: rest =>
    match f.finalize with
    | Except.ok g =>
      match finalizeAll rest with
      | Except.ok l => Except.ok (g :: l)
      | Except.error e => Except.error e
    | Except.error e => Except.error e

/-- The second loop building `chainItemFiles`: reads each file's `size`
getter (which throws on a falsy size). Only the chain file hashes and
sizes matter downstream; the name/content-type hashing is external. -/
def chainFilesOf : List ItemFileWithContent → Except String (List (Nat × Nat))
  | [] => Except.ok []
  | f :: rest =>
    match f.sizeOrThrow with
    | Except.ok s =>
      match chainFilesOf rest with
      | Except.ok l => Except.ok ((f.hashOrContent.contentHash, s) :: l)
      | Except.error e => Except.error e
    | Except.error e => Except.error e

/-- The content hashes of the files carrying raw content, i.e. the files
uploaded after a successful ledger submission. -/
def contentHashes (files : List ItemFileWithContent) : List Nat :=
  (files.filter (fun f => f.hashOrContent.hasContent)).map
    (fun f => f.hashOrContent.contentHash)

/-- The terms-and-conditions assembly of `addCollectionItem`: logion
classification and creative commons are mutually exclusive, the chosen one
(if any) is followed by the specific licenses. -/
def tcCheck (p : AddCollectionItemParams) : Except String (List TermsAndConditionsElement) :=
  if p.logionClassification.isSome && p.creativeCommons.isSome then
    Except.error ("Logion Classification and Creative Commons are mutually exclusive.")
  else
    Except.ok ((match p.logionClassification with
      | some lc => [lc]
      | none =>
        match p.creativeCommons with
        | some cc => [cc]
        | none => []) ++ p.specificLicenses.getD [])

/-- All validations of `addCollectionItem` that precede the
terms-and-conditions assembly, in source order: per-file finalization,
chain-file building, the restricted-delivery guard, and the token check.
None of them performs a side effect. -/
def preTcChecks (p : AddCollectionItemParams) : Except String (List ItemFileWithContent) :=
  match finalizeAll (p.itemFiles.getD []) with
  | Except.error e => Except.error e
  | Except.ok finalized =>
    match chainFilesOf finalized with
    | Except.error e => Except.error e
    | Except.ok chainItemFiles =>
      if p.restrictedDelivery.getD false
          && (chainItemFiles.length == 0 || p.itemToken.isNone) then
        Except.error
          ("Restricted delivery requires a defined underlying token as well as at least one file")
      else
        match p.itemToken with
        | some tok =>
          match validTokenOrThrow p.tokenValidation tok.issuance with
          | Except.error e => Except.error e
          | Except.ok _ => Except.ok finalized
        | none => Except.ok finalized

/-- The upload loop run after a successful ledger submission: uploads the
content-carrying files in order, the first backend failure aborting with a
wrapped backend error. -/
def runUploads (env : SubmissionEnv) (uploadEff : Nat → LocEffect) :
    List Nat → Except LocClientError Unit × List LocEffect
  | [] => (Except.ok (), [])
  | h :: rest =>
    match env.uploadResult h with
    | BackendResponse.fail f => (Except.error (LocClientError.backend (newBackendError f)), [uploadEff h])
    | BackendResponse.success _ =>
      match runUploads env uploadEff rest with
      | (r, t) => (r, uploadEff h :: t)

/-- The shared effectful tail of `addCollectionItem` and `addTokensRecord`:
pre-announce the public data to the backend; submit the signed extrinsic;
if the ledger submission fails, issue the compensating deletion of the
pre-announced record (once, not retried) and propagate — the original
error when the deletion succeeds, the deletion's wrapped backend error
when it fails; on ledger success, upload the content-carrying files. -/
def ledgerWithCompensation (env : SubmissionEnv)
    (submitEff cancelEff : LocEffect) (uploadEff : Nat → LocEffect)
    (hashes : List Nat) : Except LocClientError Unit × List LocEffect :=
  match env.submitResult with
  | BackendResponse.fail f =>
    (Except.error (LocClientError.backend (newBackendError f)), [submitEff])
  | BackendResponse.success _ =>
    match env.signResult with
    | Except.error e =>
      match env.cancelResult with
      | BackendResponse.success _ =>
        (Except.error (LocClientError.signer e), [submitEff, LocEffect.chainSubmit, cancelEff])
      | BackendResponse.fail f =>
        (Except.error (LocClientError.backend (newBackendError f)),
          [submitEff, LocEffect.chainSubmit, cancelEff])
    | Except.ok _ =>
      match runUploads env uploadEff hashes with
      | (r, t) => (r, submitEff :: LocEffect.chainSubmit :: t)

/-- `AuthenticatedLocClient.addCollectionItem`: validations (no side
effect), terms-and-conditions assembly (no side effect), then the
pre-announce / ledger-submit / compensate / upload sequence. -/
def addCollectionItem (p : AddCollectionItemParams) (env : SubmissionEnv) :
    Except LocClientError Unit × List LocEffect :=
  match preTcChecks p with
  | Except.error e => (Except.error (LocClientError.validation e), [])
  | Except.ok finalized =>
    match tcCheck p with
    | Except.error e => (Except.error (LocClientError.validation e), [])
    | Except.ok _ =>
      ledgerWithCompensation env LocEffect.submitItemPublicData
        LocEffect.cancelItemPublicData LocEffect.uploadItemFile (contentHashes finalized)

/-- `AuthenticatedLocClient.addTokensRecord`: per-file finalization and
chain-file building (no side effect), then the pre-announce /
ledger-submit / compensate / upload sequence. -/
def addTokensRecord (p : AddTokensRecordParams) (env : SubmissionEnv) :
    Except LocClientError Unit × List LocEffect :=
  match finalizeAll p.files with
  | Except.error e => (Except.error (LocClientError.validation e), [])
  | Except.ok finalized =>
    match chainFilesOf finalized with
    | Except.error e => (Except.error (LocClientError.validation e), [])
    | Except.ok _ =>
      ledgerWithCompensation env LocEffect.submitRecordPublicData
        LocEffect.cancelRecordPublicData LocEffect.uploadRecordFile (contentHashes finalized)

/-! # Theorems -/

/-! ## License terms validation (claim C4) -/

theorem mutuallyExclusive_ne_nil (p : LogionLicenseParameters)
    (c1 c2 : LogionTransferredRightCode) :
    mutuallyExclusive p c1 c2 ≠ [] ↔
      (p.transferredRights.contains c1 && p.transferredRights.contains c2) = true := by
  unfold mutuallyExclusive
  split <;> simp_all

theorem codePresentForCondition_ne_nil (p : LogionLicenseParameters)
    (code : LogionTransferredRightCode) (condition : Bool) (message : String) :
    codePresentForCondition p code condition message ≠ [] ↔
      (p.transferredRights.contains code != condition) = true := by
  unfold codePresentForCondition
  cases hc : p.transferredRights.contains code <;> cases condition <;> simp

theorem validIsoDate_ne_nil (isValidISO : String → Bool) (d : Option String) :
    validIsoDate isValidISO d ≠ [] ↔ invalidExpiration isValidISO d = true := by
  cases d with
  | none => simp [validIsoDate, invalidExpiration]
  | some s =>
    unfold validIsoDate invalidExpiration
    split <;> simp_all

theorem ne_nil_append {α : Type} (a b : List α) : a ++ b ≠ [] ↔ a ≠ [] ∨ b ≠ [] := by
  rw [Ne, List.append_eq_nil]
  tauto

theorem checkValidityErrors_ne_nil (iso : String → Bool) (p : LogionLicenseParameters) :
    checkValidityErrors iso p ≠ [] ↔ specCheckFails iso p = true := by
  unfold checkValidityErrors specCheckFails
  rw [ne_nil_append, ne_nil_append, ne_nil_append, ne_nil_append, ne_nil_append,
    ne_nil_append, ne_nil_append]
  rw [mutuallyExclusive_ne_nil, mutuallyExclusive_ne_nil, mutuallyExclusive_ne_nil,
    mutuallyExclusive_ne_nil, mutuallyExclusive_ne_nil, codePresentForCondition_ne_nil,
    codePresentForCondition_ne_nil, validIsoDate_ne_nil]
  simp only [Bool.or_eq_true]

theorem mem_mutuallyExclusive (p : LogionLicenseParameters)
    (c1 c2 : LogionTransferredRightCode)
    (h : (p.transferredRights.contains c1 && p.transferredRights.contains c2) = true) :
    ("Transferred rights are mutually exclusive: " ++ c1.str ++ " and " ++ c2.str)
      ∈ mutuallyExclusive p c1 c2 := by
  unfold mutuallyExclusive
  simp only [h]
  simp

theorem mem_codePresentForCondition (p : LogionLicenseParameters)
    (code : LogionTransferredRightCode) (condition : Bool) (message : String)
    (h : (p.transferredRights.contains code != condition) = true) :
    message ∈ codePresentForCondition p code condition message := by
  unfold codePresentForCondition
  cases hc : p.transferredRights.contains code <;> cases condition <;> simp_all

theorem mem_validIsoDate (isValidISO : String → Bool) (d : Option String)
    (h : invalidExpiration isValidISO d = true) :
    ("Invalid date") ∈ validIsoDate isValidISO d := by
  cases d with
  | none => simp [invalidExpiration] at h
  | some s =>
    simp only [invalidExpiration] at h
    simp only [validIsoDate, h]
    simp

/-- Claim C4: constructing a LogionClassification with validity checking
enabled fails exactly when the parameters violate at least one rule:
the five mutually exclusive pairs, TIME present iff an expiration is set,
REG present iff the regional-limit list is non-empty, and a set expiration
parsing as a valid ISO date. When several rules are violated, the single
thrown error (the join of the accumulated error list) reports all of them:
each violated rule contributes its message to the joined list. -/
theorem checkValidity_fails_iff_rule_violated (iso : String → Bool)
    (p : LogionLicenseParameters) :
    ((∃ e, checkValidity iso p = Except.error e) ↔ specCheckFails iso p = true)
  ∧ (checkValidityErrors iso p ≠ [] →
      checkValidity iso p
        = Except.error (String.intercalate ("; ") (checkValidityErrors iso p)))
  ∧ ((p.transferredRights.contains LogionTransferredRightCode.PER_PRIV
        && p.transferredRights.contains LogionTransferredRightCode.PER_PUB) = true →
      ("Transferred rights are mutually exclusive: PER-PRIV and PER-PUB")
        ∈ checkValidityErrors iso p)
  ∧ ((p.transferredRights.contains LogionTransferredRightCode.COM_NOMOD
        && p.transferredRights.contains LogionTransferredRightCode.COM_MOD) = true →
      ("Transferred rights are mutually exclusive: COM-NOMOD and COM-MOD")
        ∈ checkValidityErrors iso p)
  ∧ ((p.transferredRights.contains LogionTransferredRightCode.EX
        && p.transferredRights.contains LogionTransferredRightCode.NOEX) = true →
      ("Transferred rights are mutually exclusive: EX and NOEX")
        ∈ checkValidityErrors iso p)
  ∧ ((p.transferredRights.contains LogionTransferredRightCode.REG
        && p.transferredRights.contains LogionTransferredRightCode.WW) = true →
      ("Transferred rights are mutually exclusive: REG and WW")
        ∈ checkValidityErrors iso p)
  ∧ ((p.transferredRights.contains LogionTransferredRightCode.TIME
        && p.transferredRights.contains LogionTransferredRightCode.NOTIME) = true →
      ("Transferred rights are mutually exclusive: TIME and NOTIME")
        ∈ checkValidityErrors iso p)
  ∧ ((p.transferredRights.contains LogionTransferredRightCode.TIME != expirationSet p) = true →
      ("Transferred right TIME must be set if and only if expiration is set")
        ∈ checkValidityErrors iso p)
  ∧ ((p.transferredRights.contains LogionTransferredRightCode.REG != regionalLimitSet p) = true →
      ("Transferred right REG must be set if and only if a regional limit is set")
        ∈ checkValidityErrors iso p)
  ∧ (invalidExpiration iso p.expiration = true →
      ("Invalid date") ∈ checkValidityErrors iso p) := by
  have herr : (∃ e, checkValidity iso p = Except.error e) ↔ checkValidityErrors iso p ≠ [] := by
    by_cases h : checkValidityErrors iso p = []
    · simp [checkValidity, h]
    · simp [checkValidity, h]
  refine ⟨herr.trans (checkValidityErrors_ne_nil iso p), ?_, ?_, ?_, ?_, ?_, ?_, ?_, ?_, ?_⟩
  · intro h
    simp [checkValidity, h]
  · intro h
    exact List.mem_append_left _ (List.mem_append_left _ (List.mem_append_left _
      (List.mem_append_left _ (List.mem_append_left _ (List.mem_append_left _
        (List.mem_append_left _ (mem_mutuallyExclusive p _ _ h)))))))
  · intro h
    exact List.mem_append_left _ (List.mem_append_left _ (List.mem_append_left _
      (List.mem_append_left _ (List.mem_append_left _ (List.mem_append_left _
        (List.mem_append_right _ (mem_mutuallyExclusive p _ _ h)))))))
  · intro h
    exact List.mem_append_left _ (List.mem_append_left _ (List.mem_append_left _
      (List.mem_append_left _ (List.mem_append_left _
        (List.mem_append_right _ (mem_mutuallyExclusive p _ _ h))))))
  · intro h
    exact List.mem_append_left _ (List.mem_append_left _ (List.mem_append_left _
      (List.mem_append_left _
        (List.mem_append_right _ (mem_mutuallyExclusive p _ _ h)))))
  · intro h
    exact List.mem_append_left _ (List.mem_append_left _ (List.mem_append_left _
      (List.mem_append_right _ (mem_mutuallyExclusive p _ _ h))))
  · intro h
    exact List.mem_append_left _ (List.mem_append_left _
      (List.mem_append_right _ (mem_codePresentForCondition p _ _ _ h)))
  · intro h
    exact List.mem_append_left _
      (List.mem_append_right _ (mem_codePresentForCondition p _ _ _ h))
  · intro h
    exact List.mem_append_right _ (mem_validIsoDate iso p.expiration h)

/-- Witness for C4: at transferred rights [PER-PRIV, PER-PUB, COM-NOMOD,
COM-MOD, EX, NOEX, REG, WW, TIME, NOTIME] with no expiration and no
regional limit, every mutual-exclusion rule and both iff rules are
violated and each message is reported; at an invalid set expiration the
date message is reported; and the combined error is the join. -/
theorem checkValidity_fails_iff_rule_violated_witness :
    (∃ e, checkValidity (fun _ => true)
      { transferredRights := [LogionTransferredRightCode.PER_PRIV,
          LogionTransferredRightCode.PER_PUB, LogionTransferredRightCode.COM_NOMOD,
          LogionTransferredRightCode.COM_MOD, LogionTransferredRightCode.EX,
          LogionTransferredRightCode.NOEX, LogionTransferredRightCode.REG,
          LogionTransferredRightCode.WW, LogionTransferredRightCode.TIME,
          LogionTransferredRightCode.NOTIME],
        regionalLimit := none, expiration := none } = Except.error e)
  ∧ ("Transferred rights are mutually exclusive: PER-PRIV and PER-PUB")
      ∈ checkValidityErrors (fun _ => true)
        { transferredRights := [LogionTransferredRightCode.PER_PRIV,
            LogionTransferredRightCode.PER_PUB, LogionTransferredRightCode.COM_NOMOD,
            LogionTransferredRightCode.COM_MOD, LogionTransferredRightCode.EX,
            LogionTransferredRightCode.NOEX, LogionTransferredRightCode.REG,
            LogionTransferredRightCode.WW, LogionTransferredRightCode.TIME,
            LogionTransferredRightCode.NOTIME],
          regionalLimit := none, expiration := none }
  ∧ ("Invalid date")
      ∈ checkValidityErrors (fun _ => false)
        { transferredRights := [], regionalLimit := none, expiration := some ("2025-13-45") } := by
  refine ⟨?_, ?_, ?_⟩
  · exact (checkValidity_fails_iff_rule_violated (fun _ => true) _).1.mpr (by decide)
  · exact (checkValidity_fails_iff_rule_violated (fun _ => true) _).2.2.1 (by decide)
  · exact (checkValidity_fails_iff_rule_violated (fun _ => false) _).2.2.2.2.2.2.2.2.2
      (by decide)

/-! ## Token validation message (claim C6) -/

/-- Claim C6 (evidence of the code bug): evaluated at a validation result
that is invalid and carries the error string produced by the owner-token
branch of validateToken, validTokenOrThrow throws the generic message,
which does not contain the error string; evaluated at an invalid result
carrying no error string, it throws the detailed variant interpolating
undefined. This is the inverted condition the spec flags: the informative
message should appear when the error string is present. -/
theorem validTokenOrThrow_inverted_message :
    validTokenOrThrow
      { valid := false,
        error := some ("token ID must be a valid Ethereum, Polkadot or MultiversX address") } 1
      = Except.error ("Given token definition is invalid")
  ∧ ¬ ("token ID must be a valid Ethereum, Polkadot or MultiversX address").toList
      <:+: ("Given token definition is invalid").toList
  ∧ validTokenOrThrow { valid := false, error := none } 1
      = Except.error ("Given token definition is invalid: undefined") := by
  refine ⟨rfl, by decide, rfl⟩

/-! ## File finalization (claim C8) -/

/-- Claim C8 counterexample: a file payload with content of size 5 and a
declared size of 0 is constructible (the constructor guard also treats 0
as falsy), and finalize succeeds, silently replacing the declared 0 by the
content size 5, although the declared size conflicts with the size
computed from the content — so finalize does not fail exactly when a
declared size conflicts with the computed size. -/
theorem finalize_zero_declared_size_no_mismatch :
    mkItemFileWithContent ("a") ("text/plain") (some 0)
      { hasContent := true, contentSize := 5, contentHash := 77 }
      = Except.ok
          { name := "a", contentType := "text/plain", size := some 0,
            hashOrContent := { hasContent := true, contentSize := 5, contentHash := 77 } }
  ∧ ItemFileWithContent.finalize
      { name := "a", contentType := "text/plain", size := some 0,
        hashOrContent := { hasContent := true, contentSize := 5, contentHash := 77 } }
      = Except.ok
          { name := "a", contentType := "text/plain", size := some 5,
            hashOrContent := { hasContent := true, contentSize := 5, contentHash := 77 } }
  ∧ (0 : Nat) ≠ 5 := by
  refine ⟨rfl, rfl, by decide⟩

/-- Claim C8 (amended): a successful finalize is a fixed point (finalizing
again yields the same object, hence the same hash and size), the
hash/content payload and the identity fields never change, and a truthy
declared size is never changed; finalize fails (with the size-mismatch
error) exactly when the payload carries content and a non-zero declared
size differs from the content-computed size — a declared size of 0 is
treated as absent by JS truthiness and is overwritten instead of being
checked. -/
theorem finalize_idempotent_and_mismatch (f g : ItemFileWithContent) :
    (ItemFileWithContent.finalize f = Except.ok g →
      ItemFileWithContent.finalize g = Except.ok g
      ∧ g.hashOrContent = f.hashOrContent
      ∧ g.name = f.name
      ∧ g.contentType = f.contentType
      ∧ (∀ s, f.size = some s → s ≠ 0 → g.size = f.size))
  ∧ ((∃ e, ItemFileWithContent.finalize f = Except.error e) ↔
      (f.hashOrContent.hasContent = true
        ∧ ∃ s, f.size = some s ∧ s ≠ 0 ∧ s ≠ f.hashOrContent.contentSize)) := by
  obtain ⟨nm, ct, sz, hcb, hcs, hch⟩ := f
  cases hcb with
  | false =>
    constructor
    · intro h
      simp [ItemFileWithContent.finalize] at h
      subst h
      simp [ItemFileWithContent.finalize]
    · simp [ItemFileWithContent.finalize]
  | true =>
    cases sz with
    | none =>
      constructor
      · intro h
        simp [ItemFileWithContent.finalize] at h
        subst h
        simp [ItemFileWithContent.finalize]
      · simp [ItemFileWithContent.finalize]
    | some s =>
      by_cases hs0 : s = 0
      · subst hs0
        constructor
        · intro h
          simp [ItemFileWithContent.finalize] at h
          subst h
          simp [ItemFileWithContent.finalize]
        · simp [ItemFileWithContent.finalize]
      · by_cases hsc : s = hcs
        · subst hsc
          constructor
          · intro h
            simp [ItemFileWithContent.finalize, hs0] at h
            subst h
            simp [ItemFileWithContent.finalize, hs0]
          · simp [ItemFileWithContent.finalize, hs0]
        · constructor
          · intro h
            simp [ItemFileWithContent.finalize, hs0, hsc] at h
          · simp [ItemFileWithContent.finalize, hs0, hsc]

/-- Witness for C8: a payload with content of size 5 and no declared size
finalizes to declared size 5 and finalizing the result again is the
identity; a payload with declared size 4 over content of size 5 fails. -/
theorem finalize_idempotent_and_mismatch_witness :
    ItemFileWithContent.finalize
      { name := "a", contentType := "text/plain", size := some 5,
        hashOrContent := { hasContent := true, contentSize := 5, contentHash := 77 } }
      = Except.ok
          { name := "a", contentType := "text/plain", size := some 5,
            hashOrContent := { hasContent := true, contentSize := 5, contentHash := 77 } }
  ∧ (∃ e, ItemFileWithContent.finalize
      { name := "a", contentType := "text/plain", size := some 4,
        hashOrContent := { hasContent := true, contentSize := 5, contentHash := 77 } }
      = Except.error e) := by
  constructor
  · exact ((finalize_idempotent_and_mismatch
      { name := "a", contentType := "text/plain", size := none,
        hashOrContent := { hasContent := true, contentSize := 5, contentHash := 77 } }
      { name := "a", contentType := "text/plain", size := some 5,
        hashOrContent := { hasContent := true, contentSize := 5, contentHash := 77 } }).1
      rfl).1
  · exact (finalize_idempotent_and_mismatch
      { name := "a", contentType := "text/plain", size := some 4,
        hashOrContent := { hasContent := true, contentSize := 5, contentHash := 77 } }
      { name := "a", contentType := "text/plain", size := some 4,
        hashOrContent := { hasContent := true, contentSize := 5, contentHash := 77 } }).2.mpr
      (by refine ⟨rfl, 4, rfl, by decide, by decide⟩)

/-! ## Reconciliation queries (claim C3) -/

theorem onchainLookup_id (items : List ChainCollectionItem) (k : Nat)
    (ci : ChainCollectionItem) (h : onchainLookup items k = some ci) : ci.id = k := by
  have hp := List.find?_some h
  simpa using hp

theorem mergeAllItems_ok_ids (onchainItems : List ChainCollectionItem)
    (offs : List OffchainCollectionItem) (l : List UploadableCollectionItem)
    (h : mergeAllItems onchainItems offs = Except.ok l) :
    l.map UploadableCollectionItem.id = offs.map OffchainCollectionItem.itemId := by
  induction offs generalizing l with
  | nil =>
    simp [mergeAllItems] at h
    subst h
    simp
  | cons off rest ih =>
    rw [mergeAllItems] at h
    cases hl : onchainLookup onchainItems off.itemId with
    | none => rw [hl] at h; cases h
    | some ci =>
      rw [hl] at h
      cases hr : mergeAllItems onchainItems rest with
      | ok l2 =>
        rw [hr] at h
        cases h
        simpa [mergeItems, onchainLookup_id onchainItems off.itemId ci hl] using ih l2 hr
      | error e => rw [hr] at h; cases h

theorem mergeAllItems_ok_of_lookup (onchainItems : List ChainCollectionItem)
    (offs : List OffchainCollectionItem)
    (h : ∀ o ∈ offs, (onchainLookup onchainItems o.itemId).isSome) :
    ∃ l, mergeAllItems onchainItems offs = Except.ok l := by
  induction offs with
  | nil => exact ⟨[], rfl⟩
  | cons off rest ih =>
    obtain ⟨ci, hci⟩ := Option.isSome_iff_exists.mp (h off (by simp))
    obtain ⟨l, hl⟩ := ih (fun o ho => h o (by simp [ho]))
    exact ⟨_, by rw [mergeAllItems, hci, hl]⟩

theorem mergeAllItems_error_of_missing (onchainItems : List ChainCollectionItem)
    (offs : List OffchainCollectionItem)
    (h : ∃ o ∈ offs, onchainLookup onchainItems o.itemId = none) :
    ∃ e, mergeAllItems onchainItems offs = Except.error e := by
  induction offs with
  | nil => simp at h
  | cons off rest ih =>
    rcases h with ⟨o, ho, hnone⟩
    rcases List.mem_cons.mp ho with rfl | hmem
    · exact ⟨_, by rw [mergeAllItems, hnone]⟩
    · cases hl : onchainLookup onchainItems off.itemId with
      | none => exact ⟨_, by rw [mergeAllItems, hl]⟩
      | some ci =>
        obtain ⟨e, he⟩ := ih ⟨o, hmem, hnone⟩
        exact ⟨e, by rw [mergeAllItems, hl, he]⟩

/-- Claim C3 counterexample: with one item on chain and an empty backend
item list, getCollectionItems succeeds with an empty result and raises no
error — the on-chain item whose backend companion record is missing is
silently dropped, instead of the call raising OffchainRecordNotFoundError
as the claim states for every collection-item query. -/
theorem getCollectionItems_missing_companion_no_error :
    getCollectionItems [⟨1, 2, [], none, false, []⟩] (BackendResponse.success [])
      = Except.ok []
  ∧ getCollectionItems [⟨1, 2, [], none, false, []⟩] (BackendResponse.success [])
      ≠ Except.error ClientError.offchainRecordNotFound := by
  refine ⟨rfl, ?_⟩
  intro h
  rw [show getCollectionItems [⟨1, 2, [], none, false, []⟩] (BackendResponse.success [])
    = Except.ok [] from rfl] at h
  cases h

/-- Claim C3 (amended): for the single-entity queries (getCollectionItem,
getTokensRecord) the on-chain entry defines existence — absent entry gives
ok none regardless of the backend; present entry with missing backend
companion raises OffchainRecordNotFoundError; both present fold the
backend names, content types and uploaded flags into the chain-authoritative
id, hashes, sizes and terms. The list query getCollectionItems instead
enumerates the backend list: when every backend item has an on-chain
companion it succeeds and returns exactly the backend items' ids (so an
on-chain entry missing its backend companion is silently omitted, not an
error), and a backend item without on-chain companion makes the whole call
fail with a wrapped backend error. -/
theorem reconciliation_onchain_defines_existence
    (item : ChainCollectionItem) (off : OffchainCollectionItem)
    (record : ChainTokensRecord) (offRec : OffchainTokensRecord)
    (onchainItems : List ChainCollectionItem) (offs : List OffchainCollectionItem) :
    ((∀ resp : BackendResponse OffchainCollectionItem,
        getCollectionItem none resp = Except.ok none)
      ∧ getCollectionItem (some item) (BackendResponse.fail BackendFailure.notFound)
          = Except.error ClientError.offchainRecordNotFound
      ∧ getCollectionItem (some item) (BackendResponse.success off)
          = Except.ok (some (mergeItems item off)))
  ∧ ((mergeItems item off).id = item.id
      ∧ (mergeItems item off).description = { hash := item.description, value := off.description }
      ∧ (mergeItems item off).files.map UploadableItemFile.hash
          = item.files.map ChainItemFile.hash
      ∧ (mergeItems item off).files.map UploadableItemFile.size
          = item.files.map ChainItemFile.size
      ∧ (mergeItems item off).files.map (fun x => x.name.value)
          = item.files.map (fun x =>
              (findOffchainFile off.files x.hash).bind OffchainCollectionItemFile.name)
      ∧ (mergeItems item off).files.map (fun x => x.contentType.value)
          = item.files.map (fun x =>
              (findOffchainFile off.files x.hash).bind OffchainCollectionItemFile.contentType)
      ∧ (mergeItems item off).files.map UploadableItemFile.uploaded
          = item.files.map (fun x =>
              (((findOffchainFile off.files x.hash).bind
                OffchainCollectionItemFile.uploaded).getD false))
      ∧ (mergeItems item off).termsAndConditions
          = newTermsAndConditions item.termsAndConditions off.termsAndConditions)
  ∧ ((∀ resp : BackendResponse OffchainTokensRecord,
        getTokensRecord none resp = Except.ok none)
      ∧ getTokensRecord (some record) (BackendResponse.fail BackendFailure.notFound)
          = Except.error ClientError.offchainRecordNotFound
      ∧ getTokensRecord (some record) (BackendResponse.success offRec)
          = Except.ok (some (mergeRecords record offRec)))
  ∧ (((∀ o ∈ offs, (onchainLookup onchainItems o.itemId).isSome) →
        ∃ l, getCollectionItems onchainItems (BackendResponse.success offs) = Except.ok l
          ∧ l.map UploadableCollectionItem.id = offs.map OffchainCollectionItem.itemId)
      ∧ ((∃ o ∈ offs, onchainLookup onchainItems o.itemId = none) →
        ∃ e, getCollectionItems onchainItems (BackendResponse.success offs)
          = Except.error e)) := by
  refine ⟨⟨fun resp => rfl, rfl, rfl⟩, ⟨rfl, rfl, ?_, ?_, ?_, ?_, ?_, rfl⟩,
    ⟨fun resp => rfl, rfl, rfl⟩, ?_, ?_⟩
  · simp [mergeItems, List.map_map]
  · simp [mergeItems, List.map_map]
  · simp [mergeItems, List.map_map]
  · simp [mergeItems, List.map_map]
  · simp [mergeItems, List.map_map]
  · intro h
    obtain ⟨l, hl⟩ := mergeAllItems_ok_of_lookup onchainItems offs h
    exact ⟨l, by simpa [getCollectionItems] using hl,
      mergeAllItems_ok_ids onchainItems offs l hl⟩
  · intro h
    obtain ⟨e, he⟩ := mergeAllItems_error_of_missing onchainItems offs h
    exact ⟨e, by simpa [getCollectionItems] using he⟩

/-- Witness for C3: with chain item id 5 known to the backend, the list
query returns exactly that item's id; with an empty chain and a backend
item id 5, the list query fails. -/
theorem reconciliation_onchain_defines_existence_witness :
    (∃ l, getCollectionItems [⟨5, 6, [], none, false, []⟩]
        (BackendResponse.success [⟨5, "t", none, [], [], none⟩]) = Except.ok l
      ∧ l.map UploadableCollectionItem.id
          = List.map OffchainCollectionItem.itemId [⟨5, "t", none, [], [], none⟩])
  ∧ (∃ e, getCollectionItems ([] : List ChainCollectionItem)
      (BackendResponse.success [⟨5, "t", none, [], [], none⟩]) = Except.error e) := by
  constructor
  · exact (reconciliation_onchain_defines_existence ⟨5, 6, [], none, false, []⟩
      ⟨5, "t", none, [], [], none⟩ ⟨0, "", []⟩ ⟨0, "", "", []⟩
      [⟨5, 6, [], none, false, []⟩] [⟨5, "t", none, [], [], none⟩]).2.2.2.1 (by decide)
  · exact (reconciliation_onchain_defines_existence ⟨5, 6, [], none, false, []⟩
      ⟨5, "t", none, [], [], none⟩ ⟨0, "", []⟩ ⟨0, "", "", []⟩
      [] [⟨5, "t", none, [], [], none⟩]).2.2.2.2
      ⟨⟨5, "t", none, [], [], none⟩, by decide, by decide⟩

/-! ## Issuer list reconciliation (claims C5 and C9) -/

/-- Claim C5 counterexample: the owner of an OPEN LOC whose backend lists
issuer I1 while the chain does not yet: I1 is included in the result, but
with selected = false, not selected = true as the claim states for a
backend-known issuer not yet reflected on-chain. -/
theorem getLocIssuers_backend_pending_not_selected :
    (getLocIssuers ⟨AccountType.Polkadot, "OWNER"⟩
      ⟨LocRequestStatus.OPEN, LocType.Transaction, "OWNER", none,
        [⟨"I1", ⟨"John", "Doe"⟩, "L1", some true⟩]⟩
      [] []).issuers
      = [⟨"John", "Doe", "L1", "I1", some false⟩]
  ∧ ([⟨"John", "Doe", "L1", "I1", some false⟩] : List VerifiedIssuer)
      ≠ [⟨"John", "Doe", "L1", "I1", some true⟩] := by
  exact ⟨rfl, by decide⟩

/-- Claim C5 (amended): in the issuer list returned to an authorized
caller, every backend-known issuer is included with selected equal to its
chain membership — so a backend issuer not yet reflected on-chain carries
selected = false, not true — and every chain-selected issuer absent from
the backend issuer list is synthesized with blank first/last name and
selected = true. -/
theorem getLocIssuers_reconciliation (current : SupportedAccountId)
    (request : IssuersRequest) (nodeIssuers availableIssuers : List NodeIssuer)
    (hstatus : request.status = LocRequestStatus.OPEN
      ∨ request.status = LocRequestStatus.CLOSED)
    (hauth : isAuthorized current request nodeIssuers = true) :
    (∀ b ∈ request.selectedIssuers,
      ({ firstName := jsOrEmpty b.identity.firstName,
         lastName := jsOrEmpty b.identity.lastName,
         identityLocId := b.identityLocId, address := b.address,
         selected := some (chainSelected nodeIssuers b.address) } : VerifiedIssuer)
        ∈ (getLocIssuers current request nodeIssuers availableIssuers).issuers)
  ∧ (∀ n ∈ nodeIssuers,
      n.address ∉ request.selectedIssuers.map VerifiedIssuerIdentity.address →
      ({ firstName := "", lastName := "", identityLocId := n.identityLocId,
         address := n.address, selected := some true } : VerifiedIssuer)
        ∈ (getLocIssuers current request nodeIssuers availableIssuers).issuers) := by
  have hcond : (request.status ≠ LocRequestStatus.OPEN
      && request.status ≠ LocRequestStatus.CLOSED) = false := by
    rcases hstatus with h | h <;> simp [h]
  constructor
  · intro b hb
    simp only [getLocIssuers, hcond, Bool.false_eq_true, if_false, hauth, if_true]
    exact List.mem_append_left _ (List.mem_map_of_mem _ hb)
  · intro n hn hnot
    simp only [getLocIssuers, hcond, Bool.false_eq_true, if_false, hauth, if_true]
    apply List.mem_append_right
    apply List.mem_map_of_mem
    rw [List.mem_filter]
    refine ⟨hn, ?_⟩
    simpa using hnot

/-- Witness for C5: the owner sees backend issuer I1 (not on chain) with
selected = false, and chain issuer N1 (not in the backend list) blank with
selected = true. -/
theorem getLocIssuers_reconciliation_witness :
    (⟨"John", "Doe", "L1", "I1", some false⟩ : VerifiedIssuer)
      ∈ (getLocIssuers ⟨AccountType.Polkadot, "OWNER"⟩
          ⟨LocRequestStatus.OPEN, LocType.Transaction, "OWNER", none,
            [⟨"I1", ⟨"John", "Doe"⟩, "L1", some true⟩]⟩ [] []).issuers
  ∧ (⟨"", "", "L2", "N1", some true⟩ : VerifiedIssuer)
      ∈ (getLocIssuers ⟨AccountType.Polkadot, "OWNER"⟩
          ⟨LocRequestStatus.OPEN, LocType.Transaction, "OWNER", none, []⟩
          [⟨"N1", "L2"⟩] []).issuers := by
  constructor
  · exact (getLocIssuers_reconciliation ⟨AccountType.Polkadot, "OWNER"⟩
      ⟨LocRequestStatus.OPEN, LocType.Transaction, "OWNER", none,
        [⟨"I1", ⟨"John", "Doe"⟩, "L1", some true⟩]⟩ [] []
      (Or.inl rfl) (by decide)).1
      ⟨"I1", ⟨"John", "Doe"⟩, "L1", some true⟩ (by decide)
  · exact (getLocIssuers_reconciliation ⟨AccountType.Polkadot, "OWNER"⟩
      ⟨LocRequestStatus.OPEN, LocType.Transaction, "OWNER", none, []⟩
      [⟨"N1", "L2"⟩] [] (Or.inl rfl) (by decide)).2
      ⟨"N1", "L2"⟩ (by decide) (by decide)

theorem getLocIssuers_unauth_issuers (current : SupportedAccountId)
    (request : IssuersRequest) (nodeIssuers availableIssuers : List NodeIssuer)
    (hauth : isAuthorized current request nodeIssuers = false) :
    (getLocIssuers current request nodeIssuers availableIssuers).issuers
      = if request.status = LocRequestStatus.OPEN
          ∨ request.status = LocRequestStatus.CLOSED then
          nodeIssuers.map (fun n =>
            { identityLocId := n.identityLocId, address := n.address,
              firstName := "", lastName := "", selected := none })
        else [] := by
  unfold getLocIssuers
  by_cases h1 : request.status = LocRequestStatus.OPEN
    <;> by_cases h2 : request.status = LocRequestStatus.CLOSED
    <;> simp [h1, h2, hauth, EMPTY_LOC_ISSUERS]

/-- Claim C9: when the caller is neither the requester, nor the owner, nor
itself a chain-selected issuer, every issuer in the returned list has
empty firstName and lastName; moreover the returned list does not depend
on the backend issuer data at all — two calls agreeing on the request
status, owner and requester (but with arbitrary backend issuer/identity
data) return the same list. -/
theorem getLocIssuers_unprivileged_blank (current : SupportedAccountId)
    (request : IssuersRequest) (nodeIssuers availableIssuers : List NodeIssuer)
    (hauth : isAuthorized current request nodeIssuers = false) :
    (∀ i ∈ (getLocIssuers current request nodeIssuers availableIssuers).issuers,
        i.firstName = "" ∧ i.lastName = "")
  ∧ (∀ request2 : IssuersRequest,
      request2.status = request.status →
      request2.ownerAddress = request.ownerAddress →
      request2.requesterAddress = request.requesterAddress →
      (getLocIssuers current request2 nodeIssuers availableIssuers).issuers
        = (getLocIssuers current request nodeIssuers availableIssuers).issuers) := by
  constructor
  · intro i hi
    rw [getLocIssuers_unauth_issuers current request nodeIssuers availableIssuers hauth] at hi
    by_cases hst : request.status = LocRequestStatus.OPEN
        ∨ request.status = LocRequestStatus.CLOSED
    · rw [if_pos hst] at hi
      obtain ⟨n, _, rfl⟩ := List.mem_map.mp hi
      exact ⟨rfl, rfl⟩
    · rw [if_neg hst] at hi
      cases hi
  · intro request2 hs ho hr
    have hauth2 : isAuthorized current request2 nodeIssuers = false := by
      unfold isAuthorized at hauth ⊢
      rw [hr, ho]
      exact hauth
    rw [getLocIssuers_unauth_issuers current request nodeIssuers availableIssuers hauth,
      getLocIssuers_unauth_issuers current request2 nodeIssuers availableIssuers hauth2, hs]

/-- Witness for C9: an unrelated Ethereum caller gets the same issuer list
from two requests that differ in their backend issuer identity data (and
LOC type). -/
theorem getLocIssuers_unprivileged_blank_witness :
    (getLocIssuers ⟨AccountType.Ethereum, "X"⟩
        ⟨LocRequestStatus.OPEN, LocType.Collection, "O",
          some ⟨AccountType.Polkadot, "R"⟩, []⟩ [⟨"N1", "L2"⟩] []).issuers
      = (getLocIssuers ⟨AccountType.Ethereum, "X"⟩
          ⟨LocRequestStatus.OPEN, LocType.Transaction, "O",
            some ⟨AccountType.Polkadot, "R"⟩,
            [⟨"I1", ⟨"John", "Doe"⟩, "L1", some true⟩]⟩ [⟨"N1", "L2"⟩] []).issuers := by
  exact (getLocIssuers_unprivileged_blank ⟨AccountType.Ethereum, "X"⟩
    ⟨LocRequestStatus.OPEN, LocType.Transaction, "O", some ⟨AccountType.Polkadot, "R"⟩,
      [⟨"I1", ⟨"John", "Doe"⟩, "L1", some true⟩]⟩ [⟨"N1", "L2"⟩] [] (by decide)).2
    ⟨LocRequestStatus.OPEN, LocType.Collection, "O", some ⟨AccountType.Polkadot, "R"⟩, []⟩
    rfl rfl rfl

/-! ## State objects: discard-once discipline (claim C1) -/

/-- Claim C1: a transition on an already-discarded state fails with the
stale-state error (as does ensureCurrent) and leaves the source unchanged;
on a successful action the source becomes discarded and the returned state
is not discarded; on a failed action the source stays live and the error
propagates; and after any successful transition the consumed source is
discarded, so no further operation on it ever succeeds — which closes the
induction for all sequences of transitions. -/
theorem discardOnSuccess_lifecycle {A E : Type} (s : ClientState A) (action : Except E A) :
    (s.discarded = true →
      discardOnSuccess s action = (Except.error TransitionError.staleState, s)
      ∧ (ensureCurrent s : Except (TransitionError E) Unit)
          = Except.error TransitionError.staleState)
  ∧ (s.discarded = false → ∀ a, action = Except.ok a →
      discardOnSuccess s action
        = (Except.ok { value := a, discarded := false }, { s with discarded := true }))
  ∧ (s.discarded = false → ∀ e, action = Except.error e →
      discardOnSuccess s action = (Except.error (TransitionError.actionFailed e), s))
  ∧ (s.discarded = true → ∀ t, (discardOnSuccess s action).1 ≠ Except.ok t)
  ∧ (∀ t s2, discardOnSuccess s action = (Except.ok t, s2) →
      s2.discarded = true ∧ t.discarded = false
      ∧ ∀ action2 : Except E A, ∀ t2, (discardOnSuccess s2 action2).1 ≠ Except.ok t2) := by
  refine ⟨?_, ?_, ?_, ?_, ?_⟩
  · intro hd
    exact ⟨by simp [discardOnSuccess, hd], by simp [ensureCurrent, hd]⟩
  · intro hd a ha
    subst ha
    simp [discardOnSuccess, hd]
  · intro hd e he
    subst he
    simp [discardOnSuccess, hd]
  · intro hd t
    simp [discardOnSuccess, hd]
  · intro t s2 h
    cases hd : s.discarded with
    | true =>
      have heq : discardOnSuccess s action = (Except.error TransitionError.staleState, s) := by
        simp [discardOnSuccess, hd]
      rw [heq] at h
      exact absurd (congrArg Prod.fst h) (by simp)
    | false =>
      cases action with
      | error e =>
        have heq : discardOnSuccess s (Except.error e)
            = (Except.error (TransitionError.actionFailed e), s) := by
          simp [discardOnSuccess, hd]
        rw [heq] at h
        exact absurd (congrArg Prod.fst h) (by simp)
      | ok a =>
        have heq : discardOnSuccess s (Except.ok a : Except E A)
            = (Except.ok { value := a, discarded := false }, { s with discarded := true }) := by
          simp [discardOnSuccess, hd]
        rw [heq] at h
        injection h with h1 h2
        injection h1 with h3
        subst h3
        subst h2
        refine ⟨rfl, rfl, ?_⟩
        intro action2 t2
        simp [discardOnSuccess]

/-- Witness for C1: a discarded state refuses a transition; a live state
transitions successfully and its consumed source then refuses further
transitions. -/
theorem discardOnSuccess_lifecycle_witness :
    discardOnSuccess (⟨0, true⟩ : ClientState Nat) (Except.ok 1 : Except String Nat)
      = (Except.error TransitionError.staleState, ⟨0, true⟩)
  ∧ ((discardOnSuccess (⟨0, true⟩ : ClientState Nat)
      (Except.ok 2 : Except String Nat)).1 ≠ Except.ok ⟨2, false⟩) := by
  constructor
  · exact ((discardOnSuccess_lifecycle (⟨0, true⟩ : ClientState Nat)
      (Except.ok 1 : Except String Nat)).1 rfl).1
  · exact ((discardOnSuccess_lifecycle (⟨0, false⟩ : ClientState Nat)
      (Except.ok 2 : Except String Nat)).2.2.2.2 ⟨2, false⟩ ⟨0, true⟩ rfl).2.2
      (Except.ok 2) ⟨2, false⟩

/-! ## Multi-source aggregator (claim C2) -/

theorem fetchAll_eq_join {A : Type} (query : String → Except BackendFailure (List A)) :
    ∀ endpoints, fetchAll endpoints query
      = (endpoints.filterMap (fun e => (query e).toOption)).flatten := by
  intro endpoints
  induction endpoints with
  | nil => rfl
  | cons e rest ih =>
    cases hq : query e with
    | ok l =>
      simp [fetchAll, multiSourceFetch, aggregateArrays, hq, Except.toOption,
        List.filterMap_cons] at ih ⊢
      exact ih
    | error f =>
      simp [fetchAll, multiSourceFetch, aggregateArrays, hq, Except.toOption,
        List.filterMap_cons] at ih ⊢
      exact ih

/-- Claim C2: fetchAll is the flattened concatenation of the successful
endpoints' result arrays, in endpoint order (order preserved within each
endpoint's array); a failing endpoint contributes nothing and does not
abort the others, and the aggregate raises no error (it is total). In
particular, with endpoints A, B, C where B fails and A, C each return one
item, fetchAll returns exactly those two items. -/
theorem fetchAll_aggregates_successes {A : Type}
    (endpoints : List String) (query : String → Except BackendFailure (List A)) :
    fetchAll endpoints query
      = (endpoints.filterMap (fun e => (query e).toOption)).flatten
  ∧ fetchAll ["A", "B", "C"]
      (fun e => if e = "A" then Except.ok [10]
        else if e = "B" then Except.error (BackendFailure.failure 500 ("down"))
        else Except.ok [30])
      = [10, 30] := by
  exact ⟨fetchAll_eq_join query endpoints, by decide⟩

/-! ## Compensated submission (claims C7 and C10) -/

/-- Claim C7 counterexample: the ledger submission fails with the signer
error chain-down after the pre-announcement, and the compensating deletion
itself fails with a 500; the propagated error is the deletion's wrapped
backend error, not the original submission error, contrary to the claim
that the original submission error is propagated. -/
theorem addCollectionItem_compensation_masks_error :
    addCollectionItem ⟨1, "d", none, none, ⟨true, none⟩, none, none, none, none⟩
      { submitResult := BackendResponse.success (),
        signResult := Except.error ("chain down"),
        cancelResult := BackendResponse.fail (BackendFailure.failure 500 ("cancel boom")),
        uploadResult := fun _ => BackendResponse.success () }
      = (Except.error (LocClientError.backend (ClientError.backendFailure 500 ("cancel boom"))),
         [LocEffect.submitItemPublicData, LocEffect.chainSubmit,
          LocEffect.cancelItemPublicData])
  ∧ LocClientError.backend (ClientError.backendFailure 500 ("cancel boom"))
      ≠ LocClientError.signer ("chain down") := by
  exact ⟨rfl, by decide⟩

/-- Claim C7 (amended): when the signed ledger submission fails after the
off-chain pre-announcement (for addCollectionItem and addTokensRecord
alike), the client issues exactly one compensating deletion of the
pre-announced record — best-effort, not retried — and then propagates the
original submission error when the deletion succeeds; when the deletion
itself fails, its wrapped backend error propagates instead (masking the
original). In both cases no orphaned off-chain entry survives without a
deletion attempt, and no upload is performed. -/
theorem submission_failure_triggers_compensation
    (p : AddCollectionItemParams) (q : AddTokensRecordParams) (env : SubmissionEnv)
    (e : String) (hsign : env.signResult = Except.error e) :
    (LocEffect.chainSubmit ∈ (addCollectionItem p env).2 →
      (addCollectionItem p env).2
        = [LocEffect.submitItemPublicData, LocEffect.chainSubmit,
           LocEffect.cancelItemPublicData]
      ∧ (addCollectionItem p env).1
        = (match env.cancelResult with
           | BackendResponse.success _ => Except.error (LocClientError.signer e)
           | BackendResponse.fail f =>
              Except.error (LocClientError.backend (newBackendError f))))
  ∧ (LocEffect.chainSubmit ∈ (addTokensRecord q env).2 →
      (addTokensRecord q env).2
        = [LocEffect.submitRecordPublicData, LocEffect.chainSubmit,
           LocEffect.cancelRecordPublicData]
      ∧ (addTokensRecord q env).1
        = (match env.cancelResult with
           | BackendResponse.success _ => Except.error (LocClientError.signer e)
           | BackendResponse.fail f =>
              Except.error (LocClientError.backend (newBackendError f)))) := by
  constructor
  · intro hmem
    cases hpre : preTcChecks p with
    | error msg => simp [addCollectionItem, hpre] at hmem
    | ok fin =>
      cases htc : tcCheck p with
      | error msg => simp [addCollectionItem, hpre, htc] at hmem
      | ok tcs =>
        cases hsub : env.submitResult with
        | fail f => simp [addCollectionItem, ledgerWithCompensation, hpre, htc, hsub] at hmem
        | success u =>
          cases hc : env.cancelResult with
          | success v =>
            cases u
            cases v
            simp [addCollectionItem, ledgerWithCompensation, hpre, htc, hsub, hsign, hc]
          | fail f =>
            cases u
            simp [addCollectionItem, ledgerWithCompensation, hpre, htc, hsub, hsign, hc]
  · intro hmem
    cases hfin : finalizeAll q.files with
    | error msg => simp [addTokensRecord, hfin] at hmem
    | ok fin =>
      cases hcf : chainFilesOf fin with
      | error msg => simp [addTokensRecord, hfin, hcf] at hmem
      | ok cfs =>
        cases hsub : env.submitResult with
        | fail f => simp [addTokensRecord, ledgerWithCompensation, hfin, hcf, hsub] at hmem
        | success u =>
          cases hc : env.cancelResult with
          | success v =>
            cases u
            cases v
            simp [addTokensRecord, ledgerWithCompensation, hfin, hcf, hsub, hsign, hc]
          | fail f =>
            cases u
            simp [addTokensRecord, ledgerWithCompensation, hfin, hcf, hsub, hsign, hc]

/-- Witness for C7: with a failing ledger submission and a succeeding
compensation, a minimal addCollectionItem propagates the original signer
error after submit, chain submit and exactly one compensating deletion. -/
theorem submission_failure_triggers_compensation_witness :
    (addCollectionItem ⟨1, "d", none, none, ⟨true, none⟩, none, none, none, none⟩
      { submitResult := BackendResponse.success (),
        signResult := Except.error ("boom"),
        cancelResult := BackendResponse.success (),
        uploadResult := fun _ => BackendResponse.success () }).2
      = [LocEffect.submitItemPublicData, LocEffect.chainSubmit,
         LocEffect.cancelItemPublicData]
  ∧ (addCollectionItem ⟨1, "d", none, none, ⟨true, none⟩, none, none, none, none⟩
      { submitResult := BackendResponse.success (),
        signResult := Except.error ("boom"),
        cancelResult := BackendResponse.success (),
        uploadResult := fun _ => BackendResponse.success () }).1
      = Except.error (LocClientError.signer ("boom")) := by
  have h := (submission_failure_triggers_compensation
    ⟨1, "d", none, none, ⟨true, none⟩, none, none, none, none⟩
    ⟨2, "r", []⟩
    { submitResult := BackendResponse.success (),
      signResult := Except.error ("boom"),
      cancelResult := BackendResponse.success (),
      uploadResult := fun _ => BackendResponse.success () }
    "boom" rfl).1 (by decide)
  exact ⟨h.1, h.2⟩

/-- Claim C10 counterexample: with both terms elements set but an item
file whose declared size 4 conflicts with its content size 5, the call
still fails with no side effect, but the thrown error is the
size-mismatch message, not the mutual-exclusion message the claim quotes. -/
theorem addCollectionItem_both_tc_other_error :
    addCollectionItem
      ⟨1, "d", some [⟨"f", "t", some 4, ⟨true, 5, 9⟩⟩], none, ⟨true, none⟩, none,
        some ⟨"logion_classification", 7, "{}"⟩, none, some ⟨"CC4.0", 8, "BY"⟩⟩
      { submitResult := BackendResponse.success (),
        signResult := Except.ok (),
        cancelResult := BackendResponse.success (),
        uploadResult := fun _ => BackendResponse.success () }
      = (Except.error (LocClientError.validation
          ("Given size does not match content: got 4, should be 5")), [])
  ∧ LocClientError.validation ("Given size does not match content: got 4, should be 5")
      ≠ LocClientError.validation
          ("Logion Classification and Creative Commons are mutually exclusive.") := by
  exact ⟨rfl, by decide⟩

/-- Claim C10 (amended): addCollectionItem called with both a
logionClassification and a creativeCommons element always fails before any
side effect — the effect trace is empty, so neither the off-chain
pre-announcement nor the ledger submission is attempted and no state is
changed — and the error is the mutual-exclusion message whenever the
earlier validations (file finalization and size getter,
restricted-delivery guard, token check) pass; otherwise it is that earlier
validation error, still with no side effect. -/
theorem addCollectionItem_tc_mutually_exclusive (p : AddCollectionItemParams)
    (env : SubmissionEnv) (hlc : p.logionClassification.isSome = true)
    (hcc : p.creativeCommons.isSome = true) :
    (∃ msg, (addCollectionItem p env).1 = Except.error (LocClientError.validation msg))
  ∧ (addCollectionItem p env).2 = []
  ∧ (∀ fin, preTcChecks p = Except.ok fin →
      (addCollectionItem p env).1 = Except.error (LocClientError.validation
        ("Logion Classification and Creative Commons are mutually exclusive."))) := by
  have htc : tcCheck p
      = Except.error ("Logion Classification and Creative Commons are mutually exclusive.") := by
    unfold tcCheck
    simp [hlc, hcc]
  cases hpre : preTcChecks p with
  | error msg =>
    refine ⟨⟨msg, ?_⟩, ?_, ?_⟩
    · simp [addCollectionItem, hpre]
    · simp [addCollectionItem, hpre]
    · intro fin hfin
      exact Except.noConfusion hfin
  | ok fin =>
    refine ⟨⟨"Logion Classification and Creative Commons are mutually exclusive.", ?_⟩, ?_, ?_⟩
    · simp [addCollectionItem, hpre, htc]
    · simp [addCollectionItem, hpre, htc]
    · intro fin2 hfin
      simp [addCollectionItem, hpre, htc]

/-- Witness for C10: with both terms elements set and otherwise valid
parameters, the call fails with the mutual-exclusion message and an empty
effect trace. -/
theorem addCollectionItem_tc_mutually_exclusive_witness :
    (addCollectionItem ⟨1, "d", none, none, ⟨true, none⟩, none,
        some ⟨"logion_classification", 7, "{}"⟩, none, some ⟨"CC4.0", 8, "BY"⟩⟩
      { submitResult := BackendResponse.success (),
        signResult := Except.ok (),
        cancelResult := BackendResponse.success (),
        uploadResult := fun _ => BackendResponse.success () }).1
      = Except.error (LocClientError.validation
          ("Logion Classification and Creative Commons are mutually exclusive."))
  ∧ (addCollectionItem ⟨1, "d", none, none, ⟨true, none⟩, none,
        some ⟨"logion_classification", 7, "{}"⟩, none, some ⟨"CC4.0", 8, "BY"⟩⟩
      { submitResult := BackendResponse.success (),
        signResult := Except.ok (),
        cancelResult := BackendResponse.success (),
        uploadResult := fun _ => BackendResponse.success () }).2 = [] := by
  constructor
  · exact (addCollectionItem_tc_mutually_exclusive
      ⟨1, "d", none, none, ⟨true, none⟩, none,
        some ⟨"logion_classification", 7, "{}"⟩, none, some ⟨"CC4.0", 8, "BY"⟩⟩
      { submitResult := BackendResponse.success (),
        signResult := Except.ok (),
        cancelResult := BackendResponse.success (),
        uploadResult := fun _ => BackendResponse.success () }
      rfl rfl).2.2 [] rfl
  · exact (addCollectionItem_tc_mutually_exclusive
      ⟨1, "d", none, none, ⟨true, none⟩, none,
        some ⟨"logion_classification", 7, "{}"⟩, none, some ⟨"CC4.0", 8, "BY"⟩⟩
      { submitResult := BackendResponse.success (),
        signResult := Except.ok (),
        cancelResult := BackendResponse.success (),
        uploadResult := fun _ => BackendResponse.success () }
      rfl rfl).2.1

end Logion
